import Mathlib

/-!
Verification of the `azure-document-uploader` repository: a shallow embedding
of its container-name validator (client, `ContainerManager.tsx`), its upload
pipeline (multer configuration plus error middleware, `server/index.js`) and
its REST route handlers over an explicit storage state modelling the Azure
blob service, together with theorems settling the specification's claims.

Conventions: JavaScript strings are modelled as `List Char` for the validator
(character-level reasoning) and as Lean `String` for names carried opaquely by
the handlers; machine integers do not overflow in any of the embedded code
(lengths and byte counts), so `Nat` is used directly.
-/

namespace AzureUploader

/-! ### Container-name validator

Embeds `validateContainerName` from
`client/src/components/ContainerManager.tsx` (lines 75-90).  The JavaScript
test `!name` on a string is true exactly on the empty string; the regular
expression `/^[a-z0-9-]+$/` matches exactly the nonempty strings all of whose
characters are lowercase letters, digits or hyphens. -/

/-- Membership of a character in the class `[a-z0-9-]`. -/
def isAllowedChar (c : Char) : Bool :=
  ('a' ≤ c && c ≤ 'z') || ('0' ≤ c && c ≤ '9') || c == '-'

/-- The test `/^[a-z0-9-]+$/.test(name)`: nonempty, and every character in
the class. -/
def regexTest (name : List Char) : Bool :=
  !name.isEmpty && name.all isAllowedChar

/-- The test `name.startsWith('-')`. -/
def startsWithHyphen (name : List Char) : Bool :=
  match name with
  | [] => false
  | c :: _ => c == '-'

/-- The test `name.endsWith('-')`. -/
def endsWithHyphen (name : List Char) : Bool :=
  match name.getLast? with
  | some c => c == '-'
  | none => false

/-- The test `name.includes('--')`: some two adjacent characters are both
hyphens. -/
def hasDoubleHyphen : List Char → Bool
  | [] => false
  | [_] => false
  | a :: b :: rest => (a == '-' && b == '-') || hasDoubleHyphen (b :: rest)

/-- Error message of the emptiness rule. -/
def msgRequired : String := "Container name is required"

/-- Error message of the length rule. -/
def msgLength : String := "Container name must be between 3 and 63 characters"

/-- Error message of the character-set rule. -/
def msgCharset : String :=
  "Container name must contain only lowercase letters, numbers, and hyphens"

/-- Error message of the edge-hyphen rule. -/
def msgEdgeHyphen : String := "Container name cannot start or end with a hyphen"

/-- Error message of the double-hyphen rule. -/
def msgDoubleHyphen : String := "Container name cannot contain consecutive hyphens"

/-- Embedding of `validateContainerName` (ContainerManager.tsx 75-90): returns
the first applicable error message, or `""` when the name is accepted. -/
def validateContainerName (name : List Char) : String :=
  if name = [] then msgRequired
  else if name.length < 3 ∨ name.length > 63 then msgLength
  else if !(regexTest name) then msgCharset
  else if startsWithHyphen name || endsWithHyphen name then msgEdgeHyphen
  else if hasDoubleHyphen name then msgDoubleHyphen
  else ""

/-- Validator written from the specification's words (section 4.2): first
failing rule wins, in the order empty, length outside `[3,63]`, contains a
character outside `[a-z0-9-]`, starts or ends with a hyphen, contains `--`. -/
def specValidateContainerName (name : List Char) : String :=
  if name = [] then msgRequired
  else if name.length < 3 ∨ name.length > 63 then msgLength
  else if name.any (fun c => !isAllowedChar c) then msgCharset
  else if startsWithHyphen name || endsWithHyphen name then msgEdgeHyphen
  else if hasDoubleHyphen name then msgDoubleHyphen
  else ""

/-- A name matching `^[a-z0-9-]{3,63}$` with no edge hyphen and no double
hyphen, as the specification describes acceptable names. -/
def goodName (name : List Char) : Prop :=
  3 ≤ name.length ∧ name.length ≤ 63 ∧ name.all isAllowedChar = true ∧
    startsWithHyphen name = false ∧ endsWithHyphen name = false ∧
    hasDoubleHyphen name = false

instance (name : List Char) : Decidable (goodName name) := by
  unfold goodName; infer_instance

/-- On a nonempty name the negated regular-expression test coincides with the
specification's "contains a character outside the class". -/
theorem not_regexTest_of_ne_nil (name : List Char) (h : name ≠ []) :
    (!regexTest name) = name.any (fun c => !isAllowedChar c) := by
  cases name with
  | nil => cases h rfl
  | cons a l =>
    simp [regexTest, List.all_eq_not_any_not]

/-- C1: the client validator agrees with the specification's rule order (first
failing rule among empty, length, charset, edge hyphen, double hyphen wins,
each with its specific reason), and it accepts — returns the empty message —
exactly the names matching `^[a-z0-9-]{3,63}$` with no edge hyphen and no
double hyphen. -/
theorem c1_container_name_validator (name : List Char) :
    validateContainerName name = specValidateContainerName name ∧
      (validateContainerName name = "" ↔ goodName name) := by
  constructor
  · by_cases h0 : name = []
    · simp [validateContainerName, specValidateContainerName, h0]
    · have hreg := not_regexTest_of_ne_nil name h0
      unfold validateContainerName specValidateContainerName
      rw [if_neg h0, if_neg h0]
      by_cases h1 : name.length < 3 ∨ name.length > 63
      · rw [if_pos h1, if_pos h1]
      · rw [if_neg h1, if_neg h1]
        simp only [hreg]
  · unfold validateContainerName
    split_ifs with h0 h1 h2 h3 h4
    · subst h0; decide
    · constructor
      · intro h; exact absurd h (by decide)
      · rintro ⟨ha, hb, -⟩; omega
    · constructor
      · intro h; exact absurd h (by decide)
      · rintro ⟨-, -, hall, -⟩
        rw [not_regexTest_of_ne_nil name h0] at h2
        rcases List.any_eq_true.mp h2 with ⟨c, hc, hbad⟩
        have := List.all_eq_true.mp hall c hc
        simp [this] at hbad
    · constructor
      · intro h; exact absurd h (by decide)
      · rintro ⟨-, -, -, hs, he, -⟩
        rcases Bool.or_eq_true_iff.mp h3 with h | h
        · exact absurd h (by simp [hs])
        · exact absurd h (by simp [he])
    · constructor
      · intro h; exact absurd h (by decide)
      · rintro ⟨-, -, -, -, -, hd⟩
        simp [hd] at h4
    · simp only [true_iff]
      have hlen : 3 ≤ name.length ∧ name.length ≤ 63 := by
        push_neg at h1; omega
      have hall : name.all isAllowedChar = true := by
        cases hA : name.all isAllowedChar
        · exact absurd (by simp [regexTest, hA]) h2
        · rfl
      have hs : startsWithHyphen name = false := by
        cases hS : startsWithHyphen name
        · rfl
        · exact absurd (by simp [hS]) h3
      have he : endsWithHyphen name = false := by
        cases hE : endsWithHyphen name
        · rfl
        · exact absurd (by simp [hE]) h3
      have hd : hasDoubleHyphen name = false := by
        cases hD : hasDoubleHyphen name
        · rfl
        · exact absurd hD h4
      exact ⟨hlen.1, hlen.2, hall, hs, he, hd⟩

/-! ### Storage-service model

The handlers in `server/index.js` call the Azure blob-storage SDK.  The SDK
and the remote service are modelled by an explicit state: a list of
containers, each holding a public-access level (the `access` option passed at
creation) and a list of stored blobs.  The operations below follow the SDK's
documented semantics: `createIfNotExists` is idempotent, `create` fails with
REST status 409 on an existing container, and `delete` on a blob fails with
REST status 404 when the blob is absent.  Server-side name validation by the
remote service is not modelled; no claim depends on it. -/

/-- Metadata tags written by the upload handler (`originalName`, `uploadDate`,
`fileSize`); each is absent or present with a string value. -/
structure BlobMeta where
  originalName : Option String
  uploadDate : Option String
  fileSize : Option String
deriving DecidableEq, Repr

/-- A stored blob: generated name, bytes, content type, metadata tags and the
service-assigned last-modified timestamp. -/
structure StoredBlob where
  name : String
  bytes : List Nat
  contentType : String
  metadata : BlobMeta
  lastModified : String
deriving DecidableEq, Repr

/-- A container: its name, the public-access level it was created with, and
its blobs. -/
structure StorageContainer where
  name : String
  publicAccess : Option String
  blobs : List StoredBlob
deriving DecidableEq, Repr

/-- The storage account: the containers it holds. -/
abbrev StorageState := List StorageContainer

/-- Look up a container by name. -/
def findContainer (st : StorageState) (cn : String) : Option StorageContainer :=
  st.find? (fun c => c.name == cn)

/-- Whether a container of the given name exists. -/
def containerExists (st : StorageState) (cn : String) : Bool :=
  (findContainer st cn).isSome

/-- Blobs of the named container (empty when the container is absent). -/
def containerBlobs (st : StorageState) (cn : String) : List StoredBlob :=
  match findContainer st cn with
  | some c => c.blobs
  | none => []

/-- Whether the named blob exists in the named container. -/
def blobExists (st : StorageState) (cn fn : String) : Bool :=
  (containerBlobs st cn).any (fun b => b.name == fn)

/-- SDK `containerClient.createIfNotExists({access})`: adds an empty container
with the given access level when absent, otherwise changes nothing. -/
def sdkCreateIfNotExists (st : StorageState) (cn : String) (access : String) :
    StorageState :=
  if containerExists st cn then st else ⟨cn, some access, []⟩ :: st

/-- SDK `containerClient.create({access})`: fails with REST status code 409
when the container already exists. -/
def sdkCreate (st : StorageState) (cn : String) (access : String) :
    Except Nat StorageState :=
  if containerExists st cn then .error 409
  else .ok (⟨cn, some access, []⟩ :: st)

/-- SDK `blockBlobClient.uploadData`: stores the blob in the container,
overwriting any blob of the same name. -/
def sdkPutBlob (st : StorageState) (cn : String) (b : StoredBlob) : StorageState :=
  st.map (fun c =>
    if c.name == cn then
      { c with blobs := c.blobs.filter (fun ob => !(ob.name == b.name)) ++ [b] }
    else c)

/-- SDK `blobClient.delete()`: fails with REST status code 404 when the
container or the blob is absent. -/
def sdkDeleteBlob (st : StorageState) (cn fn : String) : Except Nat StorageState :=
  match findContainer st cn with
  | none => .error 404
  | some c =>
    if c.blobs.any (fun b => b.name == fn) then
      .ok (st.map (fun d =>
        if d.name == cn then
          { d with blobs := d.blobs.filter (fun b => !(b.name == fn)) }
        else d))
    else .error 404

/-- Embedding of `getContainerClient` (server/index.js 70-80): resolve the
container, creating it with public-access level "blob" when absent. -/
def getContainerClient (st : StorageState) (cn : String) : StorageState :=
  sdkCreateIfNotExists st cn "blob"

/-! ### POST /api/containers (server/index.js 105-131) -/

/-- Response of the create-container handler, together with the storage state
it leaves behind and whether the storage-side create call was made. -/
structure CreateContainerRes where
  status : Nat
  errorMsg : Option String
  name : Option String
  storageCreateCalled : Bool
  state : StorageState
deriving DecidableEq, Repr

/-- Error message of the server-side name guard. -/
def msgServerInvalidName : String :=
  "Container name must contain only lowercase letters, numbers, and hyphens"

/-- The server-side acceptance test of POST /api/containers: the JavaScript
guard is `!name || !/^[a-z0-9-]+$/.test(name)`; `!name` is true exactly on a
missing or empty name, and the regular expression also fails on the empty
string, so the request is accepted iff a name is present and passes the
regular expression. -/
def serverNameOk (name : Option String) : Bool :=
  match name with
  | none => false
  | some n => regexTest n.data

/-- Embedding of `app.post('/api/containers')` (server/index.js 105-131):
guard the name with `/^[a-z0-9-]+$/` only, then call the SDK create; map a
409 SDK failure to HTTP 409 and any other failure to HTTP 500. -/
def postContainers (st : StorageState) (name : Option String) : CreateContainerRes :=
  match name with
  | none => ⟨400, some msgServerInvalidName, none, false, st⟩
  | some n =>
    if !(regexTest n.data) then ⟨400, some msgServerInvalidName, none, false, st⟩
    else
      match sdkCreate st n "blob" with
      | .ok st1 => ⟨200, none, some n, true, st1⟩
      | .error code =>
        if code == 409 then ⟨409, some "Container already exists", none, true, st⟩
        else ⟨500, some "Failed to create container", none, true, st⟩

/-- C2 counterexample: the name "ab" violates the length rule (the client
validator rejects it), yet the server-side handler does not return 400 and
does invoke the storage create call. -/
theorem c2_counterexample :
    validateContainerName ('a' :: 'b' :: []) ≠ "" ∧
      (postContainers [] (some "ab")).storageCreateCalled = true ∧
      (postContainers [] (some "ab")).status ≠ 400 := by
  decide

/-- C2 amended: the handler returns 400 without any storage call exactly when
the name is missing, empty, or fails `/^[a-z0-9-]+$/`; names violating only
the length, edge-hyphen or double-hyphen rules reach the storage create call;
the name "AB" (uppercase) is rejected with 400 and never reaches storage. -/
theorem c2_server_side_validation (st : StorageState) (name : Option String) :
    ((postContainers st name).status = 400 ↔ serverNameOk name = false) ∧
      ((postContainers st name).storageCreateCalled = true ↔ serverNameOk name = true) ∧
      (postContainers st (some "AB")).status = 400 ∧
      (postContainers st (some "AB")).storageCreateCalled = false := by
  have hAB : regexTest "AB".data = false := by decide
  refine ⟨?_, ?_, ?_, ?_⟩
  · cases name with
    | none => simp [postContainers, serverNameOk]
    | some n =>
      by_cases hr : regexTest n.data
      · by_cases hex : containerExists st n
        · simp [postContainers, serverNameOk, hr, sdkCreate, hex]
        · simp [postContainers, serverNameOk, hr, sdkCreate, hex]
      · simp [postContainers, serverNameOk, hr]
  · cases name with
    | none => simp [postContainers, serverNameOk]
    | some n =>
      by_cases hr : regexTest n.data
      · by_cases hex : containerExists st n
        · simp [postContainers, serverNameOk, hr, sdkCreate, hex]
        · simp [postContainers, serverNameOk, hr, sdkCreate, hex]
      · simp [postContainers, serverNameOk, hr]
  · simp [postContainers, hAB]
  · simp [postContainers, hAB]

/-- C7: creating a container whose (well-formed) name is already in use yields
HTTP 409 with the conflict message, and the storage state — in particular the
existing container and its blobs — is unchanged. -/
theorem c7_duplicate_container_conflict (st : StorageState) (n : String)
    (hname : regexTest n.data = true) (hex : containerExists st n = true) :
    (postContainers st (some n)).status = 409 ∧
      (postContainers st (some n)).errorMsg = some "Container already exists" ∧
      (postContainers st (some n)).state = st := by
  simp [postContainers, hname, sdkCreate, hex]

/-- Demonstration blob used by concrete witnesses. -/
def demoBlob : StoredBlob :=
  ⟨"11111111-report.pdf", [1, 2, 3], "application/pdf",
    ⟨some "report.pdf", some "2024-01-01T00:00:00.000Z", some "3"⟩,
    "2024-01-01T00:00:00.000Z"⟩

/-- Demonstration state holding one container named "docs" with one blob. -/
def demoState : StorageState := [⟨"docs", some "blob", [demoBlob]⟩]

/-- C7 witness: at the concrete state holding container "docs", re-creating
"docs" yields 409 and leaves the state unchanged. -/
theorem c7_duplicate_container_conflict_witness :
    regexTest "docs".data = true ∧ containerExists demoState "docs" = true ∧
      (postContainers demoState (some "docs")).status = 409 ∧
      (postContainers demoState (some "docs")).state = demoState := by
  have h := c7_duplicate_container_conflict demoState "docs" (by decide) (by decide)
  exact ⟨by decide, by decide, h.1, h.2.2⟩

/-! ### POST /api/upload/:containerName (server/index.js 31-58, 134-178, 227-236) -/

/-- The fixed MIME-type allow-list of `upload.fileFilter`
(server/index.js 38-50). -/
def allowedTypes : List String :=
  ["application/pdf",
   "application/msword",
   "application/vnd.openxmlformats-officedocument.wordprocessingml.document",
   "application/vnd.ms-excel",
   "application/vnd.openxmlformats-officedocument.spreadsheetml.sheet",
   "application/vnd.ms-powerpoint",
   "application/vnd.openxmlformats-officedocument.presentationml.presentation",
   "text/plain",
   "image/jpeg",
   "image/png",
   "image/gif"]

/-- The `fileSize` limit of the multer configuration: 100 * 1024 * 1024 bytes
(server/index.js 34). -/
def fileSizeLimit : Nat := 100 * 1024 * 1024

/-- A file arriving in the multipart `file` field: declared original filename,
declared MIME type, and its bytes.  Multer's memory storage sets `req.file.size`
to the byte length of the buffered content. -/
structure IncomingFile where
  originalname : String
  mimetype : String
  bytes : List Nat
deriving DecidableEq, Repr

/-- Outcome of the `upload.single('file')` middleware. -/
inductive MulterOutcome where
  | noFile
  | accepted (f : IncomingFile)
  | errUnsupportedType
  | errLimitFileSize
deriving DecidableEq, Repr

/-- Models `upload.single('file')` with the source's `fileFilter` and
`limits.fileSize` (server/index.js 31-58).  Per multer's documented
behaviour, `fileFilter` is consulted when the file's headers arrive, before
its body is streamed, so a disallowed MIME type is rejected (with the plain
`Error('File type not supported')`) without the size limit coming into play;
the `fileSize` limit aborts an accepted file whose stream exceeds it with a
`MulterError` of code LIMIT_FILE_SIZE. -/
def multerStage (file : Option IncomingFile) : MulterOutcome :=
  match file with
  | none => .noFile
  | some f =>
    if allowedTypes.contains f.mimetype then
      if f.bytes.length > fileSizeLimit then .errLimitFileSize
      else .accepted f
    else .errUnsupportedType

/-- Base URL of the storage account as exposed by the SDK client handles. -/
def serviceUrl : String := "https://account.blob.core.windows.net"

/-- URL of a container client (`containerClient.url`). -/
def containerUrl (cn : String) : String := serviceUrl ++ "/" ++ cn

/-- Response of the upload pipeline, with the resulting storage state and the
number of storage-side calls made. -/
structure UploadRes where
  status : Nat
  message : Option String
  filename : Option String
  originalName : Option String
  url : Option String
  size : Option Nat
  container : Option String
  storageCalls : Nat
  state : StorageState
deriving DecidableEq, Repr

/-- Embedding of the POST /api/upload/:containerName pipeline
(server/index.js 134-178): an error raised by the multer stage skips the
route handler and reaches the error-handling middleware
(server/index.js 227-236), which maps a `MulterError` with code
LIMIT_FILE_SIZE to HTTP 400 and every other error — including the plain
`Error('File type not supported')` thrown by `fileFilter` — to HTTP 500
"Internal server error".  On an accepted file the handler builds the unique
blob name `uuid + "-" + originalname` (the computed `fileExtension` in the
source is unused), ensures the container exists and stores the blob with its
metadata tags; `uuid` and `now` stand for the handler's `uuidv4()` and
`new Date().toISOString()` values. -/
def postUpload (st : StorageState) (containerName : String)
    (file : Option IncomingFile) (uuid : String) (now : String) : UploadRes :=
  match multerStage file with
  | .errUnsupportedType =>
      ⟨500, some "Internal server error", none, none, none, none, none, 0, st⟩
  | .errLimitFileSize =>
      ⟨400, some "File too large. Maximum size is 100MB.", none, none, none,
        none, none, 0, st⟩
  | .noFile =>
      ⟨400, some "No file uploaded", none, none, none, none, none, 0, st⟩
  | .accepted f =>
      let uniqueFilename := uuid ++ "-" ++ f.originalname
      let st1 := getContainerClient st containerName
      let blob : StoredBlob :=
        ⟨uniqueFilename, f.bytes, f.mimetype,
          ⟨some f.originalname, some now, some (toString f.bytes.length)⟩, now⟩
      let st2 := sdkPutBlob st1 containerName blob
      ⟨200, some "File uploaded successfully", some uniqueFilename,
        some f.originalname,
        some (containerUrl containerName ++ "/" ++ uniqueFilename),
        some f.bytes.length, some containerName, 2, st2⟩

/-- A file with a MIME type outside the allow-list is stopped by
`fileFilter`. -/
theorem multerStage_of_not_allowed (f : IncomingFile)
    (h : allowedTypes.contains f.mimetype = false) :
    multerStage (some f) = .errUnsupportedType := by
  have h' : ¬ f.mimetype ∈ allowedTypes := by simpa using h
  simp [multerStage, h']

/-- An allow-listed file whose stream exceeds the size limit is aborted with
LIMIT_FILE_SIZE. -/
theorem multerStage_of_oversize (f : IncomingFile)
    (h : allowedTypes.contains f.mimetype = true)
    (hs : f.bytes.length > fileSizeLimit) :
    multerStage (some f) = .errLimitFileSize := by
  have h' : f.mimetype ∈ allowedTypes := by simpa using h
  simp [multerStage, h', hs]

/-- An allow-listed file within the size limit is accepted. -/
theorem multerStage_of_ok (f : IncomingFile)
    (h : allowedTypes.contains f.mimetype = true)
    (hs : f.bytes.length ≤ fileSizeLimit) :
    multerStage (some f) = .accepted f := by
  have h' : f.mimetype ∈ allowedTypes := by simpa using h
  have hs' : ¬ f.bytes.length > fileSizeLimit := by omega
  simp [multerStage, h', hs']

/-- Disallowed-type file used as a concrete counterexample input. -/
def exeFile : IncomingFile := ⟨"run.exe", "application/x-msdownload", [0, 1]⟩

/-- C3 counterexample: a file whose declared MIME type is outside the
allow-list is answered with HTTP 500 ("Internal server error"), not with the
claimed 400, because the error middleware only special-cases
LIMIT_FILE_SIZE. -/
theorem c3_counterexample :
    allowedTypes.contains exeFile.mimetype = false ∧
      (postUpload [] "docs" (some exeFile) "u1" "t1").status = 500 ∧
      (postUpload [] "docs" (some exeFile) "u1" "t1").status ≠ 400 := by
  decide

/-- C3 amended: a file whose declared MIME type is outside the allow-list is
rejected before the route handler runs — zero storage-side calls, state
unchanged — but with HTTP 500 and the generic "Internal server error" body,
not 400 with a structured unsupported-type reason. -/
theorem c3_unsupported_type_rejected (st : StorageState) (cn : String)
    (f : IncomingFile) (uuid now : String)
    (htype : allowedTypes.contains f.mimetype = false) :
    (postUpload st cn (some f) uuid now).status = 500 ∧
      (postUpload st cn (some f) uuid now).message = some "Internal server error" ∧
      (postUpload st cn (some f) uuid now).storageCalls = 0 ∧
      (postUpload st cn (some f) uuid now).state = st := by
  simp [postUpload, multerStage_of_not_allowed f htype]

/-- C3 witness: the amended statement at the concrete disallowed file. -/
theorem c3_unsupported_type_rejected_witness :
    allowedTypes.contains exeFile.mimetype = false ∧
      (postUpload [] "pics" (some exeFile) "u2" "t2").status = 500 ∧
      (postUpload [] "pics" (some exeFile) "u2" "t2").storageCalls = 0 := by
  have h := c3_unsupported_type_rejected [] "pics" exeFile "u2" "t2" (by decide)
  exact ⟨by decide, h.1, h.2.2.1⟩

/-- Oversized file with a disallowed MIME type, for the C6 counterexample. -/
def hugeZip : IncomingFile :=
  ⟨"big.zip", "application/zip", List.replicate (fileSizeLimit + 1) 0⟩

/-- Oversized file with an allow-listed MIME type. -/
def hugePdf : IncomingFile :=
  ⟨"big.pdf", "application/pdf", List.replicate (fileSizeLimit + 1) 0⟩

/-- C6 counterexample: an upload whose byte size exceeds the ceiling but whose
MIME type is also outside the allow-list is answered with HTTP 500, not the
claimed 400 with a too-large reason, because `fileFilter` rejects the file
before the size limit is reached. -/
theorem c6_counterexample :
    hugeZip.bytes.length > fileSizeLimit ∧
      (postUpload [] "docs" (some hugeZip) "u1" "t1").status = 500 ∧
      (postUpload [] "docs" (some hugeZip) "u1" "t1").status ≠ 400 := by
  have htype : allowedTypes.contains hugeZip.mimetype = false := by decide
  refine ⟨?_, ?_, ?_⟩
  · simp [hugeZip]
  · simp [postUpload, multerStage_of_not_allowed hugeZip htype]
  · simp [postUpload, multerStage_of_not_allowed hugeZip htype]

/-- C6 amended: an upload whose MIME type is allow-listed and whose byte size
exceeds the 100 MiB ceiling is rejected with HTTP 400 and the too-large
message, with zero storage-side calls and the state unchanged; an oversized
file whose type is also disallowed instead takes the unsupported-type path
(HTTP 500), likewise without side effect. -/
theorem c6_oversize_rejected (st : StorageState) (cn : String)
    (f : IncomingFile) (uuid now : String)
    (htype : allowedTypes.contains f.mimetype = true)
    (hsize : f.bytes.length > fileSizeLimit) :
    (postUpload st cn (some f) uuid now).status = 400 ∧
      (postUpload st cn (some f) uuid now).message =
        some "File too large. Maximum size is 100MB." ∧
      (postUpload st cn (some f) uuid now).storageCalls = 0 ∧
      (postUpload st cn (some f) uuid now).state = st := by
  simp [postUpload, multerStage_of_oversize f htype hsize]

/-- C6 witness: the amended statement at a concrete oversized PDF. -/
theorem c6_oversize_rejected_witness :
    allowedTypes.contains hugePdf.mimetype = true ∧
      hugePdf.bytes.length > fileSizeLimit ∧
      (postUpload [] "docs" (some hugePdf) "u1" "t1").status = 400 ∧
      (postUpload [] "docs" (some hugePdf) "u1" "t1").storageCalls = 0 := by
  have hsize : hugePdf.bytes.length > fileSizeLimit := by simp [hugePdf]
  have h := c6_oversize_rejected [] "docs" hugePdf "u1" "t1" (by decide) hsize
  exact ⟨by decide, hsize, h.1, h.2.2.1⟩

/-- C5: an upload whose declared MIME type is allow-listed and whose byte size
is within the ceiling succeeds (HTTP 200), the returned size equals the input
byte length exactly, the returned originalName equals the input original
filename, and the returned filename is the random identifier concatenated
with a hyphen and the original filename. -/
theorem c5_upload_success (st : StorageState) (cn : String)
    (f : IncomingFile) (uuid now : String)
    (htype : allowedTypes.contains f.mimetype = true)
    (hsize : f.bytes.length ≤ fileSizeLimit) :
    (postUpload st cn (some f) uuid now).status = 200 ∧
      (postUpload st cn (some f) uuid now).size = some f.bytes.length ∧
      (postUpload st cn (some f) uuid now).originalName = some f.originalname ∧
      (postUpload st cn (some f) uuid now).filename =
        some (uuid ++ "-" ++ f.originalname) := by
  simp [postUpload, multerStage_of_ok f htype hsize]

/-- Small allow-listed file used by the C5 witness. -/
def smallPdf : IncomingFile := ⟨"report.pdf", "application/pdf", [1, 2, 3]⟩

/-- C5 witness: the statement at a concrete three-byte PDF. -/
theorem c5_upload_success_witness :
    allowedTypes.contains smallPdf.mimetype = true ∧
      smallPdf.bytes.length ≤ fileSizeLimit ∧
      (postUpload demoState "docs" (some smallPdf) "22222222" "t1").status = 200 ∧
      (postUpload demoState "docs" (some smallPdf) "22222222" "t1").size = some 3 ∧
      (postUpload demoState "docs" (some smallPdf) "22222222" "t1").filename =
        some "22222222-report.pdf" := by
  have h := c5_upload_success demoState "docs" smallPdf "22222222" "t1"
    (by decide) (by decide)
  exact ⟨by decide, by decide, h.1, h.2.1, h.2.2.2⟩

/-! ### GET /api/containers/:containerName/files (server/index.js 181-203) -/

/-- One entry of the file-listing response. -/
structure FileEntry where
  name : String
  originalName : String
  lastModified : String
  size : Nat
  contentType : String
  url : String
deriving DecidableEq, Repr

/-- Embedding of the loop body of the listing handler (server/index.js
188-195): `originalName` is `blob.metadata?.originalName || blob.name`, and
the JavaScript `||` falls back to `blob.name` both when the tag is absent and
when it is present with the falsy empty-string value; `size` is the blob's
`contentLength`, `url` is the container client's URL joined with the blob
name. -/
def mkFileEntry (cn : String) (b : StoredBlob) : FileEntry :=
  { name := b.name
    originalName :=
      match b.metadata.originalName with
      | some v => if v = "" then b.name else v
      | none => b.name
    lastModified := b.lastModified
    size := b.bytes.length
    contentType := b.contentType
    url := containerUrl cn ++ "/" ++ b.name }

/-- Response of the listing handler with the state it leaves behind. -/
structure ListFilesRes where
  status : Nat
  files : List FileEntry
  state : StorageState
deriving DecidableEq, Repr

/-- Embedding of `app.get('/api/containers/:containerName/files')`
(server/index.js 181-203): resolve (create-if-absent) the container and map
its blobs to file entries. -/
def listFilesHandler (st : StorageState) (cn : String) : ListFilesRes :=
  let st1 := getContainerClient st cn
  ⟨200, (containerBlobs st1 cn).map (mkFileEntry cn), st1⟩

/-- The specification's words for the `originalName` of a listed entry: the
blob's `originalName` metadata tag when that metadata is present, the
generated blob name when it is absent. -/
def specOriginalName (meta : Option String) (genName : String) : String :=
  match meta with
  | some v => v
  | none => genName

/-- Blob whose originalName metadata tag is present but empty, for the C8
counterexample. -/
def emptyMetaBlob : StoredBlob :=
  ⟨"gen-1", [], "text/plain", ⟨some "", none, none⟩, "2024-01-01T00:00:00.000Z"⟩

/-- State holding one container with the empty-metadata blob. -/
def listDemoState : StorageState := [⟨"docs8", some "blob", [emptyMetaBlob]⟩]

/-- C8 counterexample: for a blob whose originalName metadata tag is present
with the empty-string value, the listed entry's originalName is the generated
blob name, not the (present) metadata value the claim prescribes. -/
theorem c8_counterexample :
    emptyMetaBlob.metadata.originalName = some "" ∧
      (listFilesHandler listDemoState "docs8").files.map (fun e => e.originalName) =
        ["gen-1"] ∧
      specOriginalName (some "") "gen-1" = "" ∧ ("gen-1" : String) ≠ "" := by
  decide

/-- C8 amended: every listed entry carries name, originalName, lastModified,
size, contentType and url; originalName equals the blob's originalName
metadata tag when that tag is present and nonempty, and falls back to the
generated blob name when the tag is absent or empty. -/
theorem c8_list_entry_fields (st : StorageState) (cn : String) :
    (listFilesHandler st cn).files =
      (containerBlobs (getContainerClient st cn) cn).map (mkFileEntry cn) ∧
    ∀ b : StoredBlob,
      ((mkFileEntry cn b).name = b.name ∧
        (mkFileEntry cn b).lastModified = b.lastModified ∧
        (mkFileEntry cn b).size = b.bytes.length ∧
        (mkFileEntry cn b).contentType = b.contentType ∧
        (mkFileEntry cn b).url = containerUrl cn ++ "/" ++ b.name) ∧
      (b.metadata.originalName = none → (mkFileEntry cn b).originalName = b.name) ∧
      (b.metadata.originalName = some "" → (mkFileEntry cn b).originalName = b.name) ∧
      (∀ v, b.metadata.originalName = some v → v ≠ "" →
        (mkFileEntry cn b).originalName = v) := by
  refine ⟨rfl, fun b => ⟨⟨rfl, rfl, rfl, rfl, rfl⟩, ?_, ?_, ?_⟩⟩
  · intro h; simp [mkFileEntry, h]
  · intro h; simp [mkFileEntry, h]
  · intro v hv hne; simp [mkFileEntry, hv, hne]

/-- C8 witness: the amended statement at the demonstration blob, whose
metadata tag is present and nonempty. -/
theorem c8_list_entry_fields_witness :
    (mkFileEntry "docs" demoBlob).originalName = "report.pdf" :=
  ((c8_list_entry_fields demoState "docs").2 demoBlob).2.2.2 "report.pdf" rfl
    (by decide)

/-! ### DELETE /api/containers/:containerName/files/:filename
(server/index.js 206-219) -/

/-- Response of the delete handler with the state it leaves behind. -/
structure DeleteRes where
  status : Nat
  message : Option String
  state : StorageState
deriving DecidableEq, Repr

/-- Embedding of `app.delete('/api/containers/:containerName/files/:filename')`
(server/index.js 206-219): resolve (create-if-absent) the container, call the
SDK delete, answer 200 on success, and — for any error, including the SDK's
404 for a missing blob — answer 500 "Failed to delete file" from the
handler's catch block. -/
def deleteFileHandler (st : StorageState) (cn fn : String) : DeleteRes :=
  let st1 := getContainerClient st cn
  match sdkDeleteBlob st1 cn fn with
  | .ok st2 => ⟨200, some "File deleted successfully", st2⟩
  | .error _ => ⟨500, some "Failed to delete file", st1⟩

/-- C4 counterexample: deleting the nonexistent blob "nope" from the existing
container "docs" is answered with HTTP 500, not the claimed 404 (and not a
success either). -/
theorem c4_counterexample :
    blobExists demoState "docs" "nope" = false ∧
      (deleteFileHandler demoState "docs" "nope").status = 500 ∧
      (deleteFileHandler demoState "docs" "nope").status ≠ 404 ∧
      (deleteFileHandler demoState "docs" "nope").status ≠ 200 := by
  decide

/-- C4 amended: deleting a blob that does not exist is never acknowledged as a
success, but the error returned is the catch-all HTTP 500 "Failed to delete
file", not 404: the handler does not map the SDK's not-found failure. -/
theorem c4_delete_missing_blob (st : StorageState) (cn fn : String)
    (h : blobExists (getContainerClient st cn) cn fn = false) :
    (deleteFileHandler st cn fn).status = 500 ∧
      (deleteFileHandler st cn fn).message = some "Failed to delete file" ∧
      (deleteFileHandler st cn fn).status ≠ 200 ∧
      (deleteFileHandler st cn fn).state = getContainerClient st cn := by
  have hdel : sdkDeleteBlob (getContainerClient st cn) cn fn = .error 404 := by
    unfold blobExists containerBlobs at h
    cases hfc : findContainer (getContainerClient st cn) cn with
    | none => simp [sdkDeleteBlob, hfc]
    | some c =>
      rw [hfc] at h
      simp [sdkDeleteBlob, hfc, h]
  simp [deleteFileHandler, hdel]

/-- C4 witness: the amended statement at the concrete state holding container
"docs" without a blob named "nope". -/
theorem c4_delete_missing_blob_witness :
    blobExists (getContainerClient demoState "docs") "docs" "nope" = false ∧
      (deleteFileHandler demoState "docs" "nope").status = 500 := by
  have h := c4_delete_missing_blob demoState "docs" "nope" (by decide)
  exact ⟨by decide, h.1⟩

/-! ### GET /api/health (server/index.js 222-224) -/

/-- Response of the health handler; `storageCalls` counts storage or network
calls made while answering. -/
structure HealthRes where
  status : Nat
  statusField : String
  timestamp : String
  storageCalls : Nat
deriving DecidableEq, Repr

/-- Embedding of `app.get('/api/health')` (server/index.js 222-224): a total
function — there is no failure branch — answering 200 with a status field and
the current timestamp, making no storage or network call. -/
def healthHandler (now : String) : HealthRes := ⟨200, "OK", now, 0⟩

/-- C9: the health check always answers 200 with a status field and a
timestamp field, and performs no storage or network call — as a total
function of the clock it cannot fail. -/
theorem c9_health_check (now : String) :
    (healthHandler now).status = 200 ∧ (healthHandler now).statusField = "OK" ∧
      (healthHandler now).timestamp = now ∧ (healthHandler now).storageCalls = 0 :=
  ⟨rfl, rfl, rfl, rfl⟩

/-- C10: listing files of a container that does not exist, and deleting a blob
from a container that does not exist, both create that container (empty, with
public blob access) as a side effect; the listing returns the empty sequence
and leaves the container existing afterwards. -/
theorem c10_create_if_absent (st : StorageState) (cn fn : String)
    (h : containerExists st cn = false) :
    (listFilesHandler st cn).files = [] ∧
      findContainer (listFilesHandler st cn).state cn = some ⟨cn, some "blob", []⟩ ∧
      findContainer (deleteFileHandler st cn fn).state cn = some ⟨cn, some "blob", []⟩ := by
  have hgc : getContainerClient st cn = ⟨cn, some "blob", []⟩ :: st := by
    simp [getContainerClient, sdkCreateIfNotExists, h]
  have hfind : findContainer (getContainerClient st cn) cn =
      some ⟨cn, some "blob", []⟩ := by
    rw [hgc]
    unfold findContainer
    rw [List.find?_cons_of_pos]
    simp
  have hblobs : containerBlobs (getContainerClient st cn) cn = [] := by
    unfold containerBlobs
    rw [hfind]
  have hdel : sdkDeleteBlob (getContainerClient st cn) cn fn = .error 404 := by
    unfold sdkDeleteBlob
    rw [hfind]
    simp
  refine ⟨?_, ?_, ?_⟩
  · show (containerBlobs (getContainerClient st cn) cn).map (mkFileEntry cn) = []
    rw [hblobs]; rfl
  · exact hfind
  · show findContainer
      (match sdkDeleteBlob (getContainerClient st cn) cn fn with
        | .ok st2 => (⟨200, some "File deleted successfully", st2⟩ : DeleteRes)
        | .error _ => ⟨500, some "Failed to delete file", getContainerClient st cn⟩).state
      cn = some ⟨cn, some "blob", []⟩
    rw [hdel]
    exact hfind

/-- C10 witness: starting from the empty storage account, listing files of the
absent container "newdocs" returns the empty sequence and creates it. -/
theorem c10_create_if_absent_witness :
    containerExists [] "newdocs" = false ∧
      (listFilesHandler [] "newdocs").files = [] ∧
      findContainer (listFilesHandler [] "newdocs").state "newdocs" =
        some ⟨"newdocs", some "blob", []⟩ := by
  have h := c10_create_if_absent [] "newdocs" "f" (by decide)
  exact ⟨by decide, h.1, h.2.1⟩

end AzureUploader
